import Mathlib

/-!
Shallow embedding of the interaction core of the `hecto-tutorial` terminal
text editor (`src/editor.rs`), together with theorems settling the frozen
claims about its specification.

Conventions of the embedding:
* `usize`/`u32`/`u8` arithmetic is modelled on `Nat`; every subtraction in the
  source is either guarded or saturating, which coincides with `Nat`
  subtraction.  The only unguarded increment that could wrap (`since_last_backup`,
  a `u32`) is reduced modulo `2^32`.
* Fallible external effects (terminal key reads, file creation, per-call
  `write_all` outcomes, `Document::save`, clipboard access, the external
  `Document::find`) are supplied through an explicit environment `Env`; a key
  read is an `Option Key` (`none` models an `Err` from `Terminal::read_key`).
* A Rust `panic!`/`unwrap()` failure is modelled as an `Option`/dedicated
  constructor result (`none` / `panicked`): the process aborts.
* The `Document`, `Row` and `Terminal` modules of the repository are not part
  of the provided sources; the few `Document` operations the editor calls are
  modelled from the spec and marked as such.
-/

namespace Hecto

/-- Direction of an incremental search (source lines 30-34). -/
inductive SearchDirection
  | Forward
  | Backward
  deriving DecidableEq, Repr

/-- Cursor / offset coordinates (source lines 36-40). -/
structure Position where
  x : Nat
  y : Nat
  deriving DecidableEq, Repr

/-- The subset of `termion::event::Key` the editor dispatches on; every other
key falls into `Other` (matched by the `_ => ()` arms of the source). -/
inductive Key
  | Char (c : Char)
  | Ctrl (c : Char)
  | Up
  | Down
  | Left
  | Right
  | PageUp
  | PageDown
  | Home
  | End
  | Delete
  | Backspace
  | Esc
  | Other
  deriving DecidableEq, Repr

/-- One `Terminal::read_key()` outcome: `none` models `Err(io error)`. -/
abbrev KeyRead := Option Key

/-- Modelled from the spec: the external text buffer (`Document`, not under
`src/`).  Per §3 it is a list of rows (zero-based), with a dirty flag
("document has unsaved modifications since the last save") and an optional
associated file name. -/
structure Document where
  rows : List (List Char)
  dirty : Bool
  file_name : Option String
  deriving DecidableEq, Repr

/-- Modelled from the spec: number of document rows (`Document::len`). -/
def Document.len (d : Document) : Nat := d.rows.length

/-- Modelled from the spec: row lookup (`Document::row`), `none` past the end. -/
def Document.row (d : Document) (index : Nat) : Option (List Char) :=
  d.rows.get? index

/-- Modelled from the spec: the dirty-flag accessor (`Document::is_dirty`). -/
def Document.is_dirty (d : Document) : Bool := d.dirty

/-- Length of row `y`, where a row past the document's end has length 0 —
this is exactly the `if let Some(row) ... row.len() else 0` idiom of
`move_cursor` (source lines 315-319, 365-369). -/
def rowLen (d : Document) (y : Nat) : Nat :=
  match d.row y with
  | some row => row.length
  | none => 0

/-- Modelled from the spec: `Document::insert` (not under `src/`).  §4.2:
"Character input: insert the character at `cursor`"; §3: one-past-end
positions of document and row are valid append positions.  A newline splits
the current row at the cursor column. -/
def Document.insert (d : Document) (pos : Position) (c : Char) : Document :=
  if d.rows.length < pos.y then d
  else if c = '\n' then
    if pos.y = d.rows.length then { d with rows := d.rows ++ [[]], dirty := true }
    else
      let row := d.rows.getD pos.y []
      { d with
          rows := d.rows.take pos.y ++ [row.take pos.x, row.drop pos.x] ++ d.rows.drop (pos.y + 1),
          dirty := true }
  else if pos.y = d.rows.length then { d with rows := d.rows ++ [[c]], dirty := true }
  else
    let row := d.rows.getD pos.y []
    { d with rows := d.rows.set pos.y (row.take pos.x ++ [c] ++ row.drop pos.x), dirty := true }

/-- Modelled from the spec: `Document::delete` (not under `src/`).  §4.2:
"Delete: remove content at `cursor`"; deleting at the end of a row merges the
next row into it (this is how backspace merges rows, §4.2). -/
def Document.delete (d : Document) (pos : Position) : Document :=
  if d.rows.length ≤ pos.y then d
  else
    let row := d.rows.getD pos.y []
    if pos.x = row.length ∧ pos.y + 1 < d.rows.length then
      let next := d.rows.getD (pos.y + 1) []
      { d with rows := (d.rows.set pos.y (row ++ next)).eraseIdx (pos.y + 1), dirty := true }
    else
      { d with rows := d.rows.set pos.y (row.take pos.x ++ row.drop (pos.x + 1)), dirty := true }

/-- Modelled from the spec: `Document::doc_read` (not under `src/`), used by
the Backup Guard; §4.5: the backup "writes every document row verbatim (no
syntax markup)", so it exposes the rows as lines. -/
def Document.doc_read (d : Document) : List (List Char) := d.rows

/-- External-effect environment for one editor session.  Terminal key input is
passed separately as a `List KeyRead`. -/
structure Env where
  /-- Clipboard contents; `none` models a failing `ClipboardProvider::new()`
  or `get_contents()` (both are `unwrap`ped at source lines 153-154). -/
  clipboard : Option String
  /-- Outcome of `fs::File::create` in `backup` (`unwrap`ped, source line 167). -/
  fileCreateOk : Bool
  /-- Outcome of the `n`-th `write_all` call of a single `backup` invocation
  (both row-content writes and line-terminator writes consume an index). -/
  writeOk : Nat → Bool
  /-- Outcome of `Document::save` (source line 146). -/
  docSaveOk : Bool
  /-- `self.init_time.elapsed().as_secs()` used as the status-message prefix;
  the `Err` branch of `elapsed()` (clock skew) is not modelled. -/
  elapsedSecs : Nat
  /-- The external substring search `Document::find` (source line 229). -/
  find : Document → String → Position → SearchDirection → Option Position

/-- The quit-confirmation counter's initial value (source line 23). -/
def QUIT_TIMES : Nat := 3

/-- Keystroke threshold triggering an automatic backup (source line 24). -/
def BACKUP_AT : Nat := 10

/-- Fallback backup file name for unnamed documents (source line 25). -/
def CACHE_FILE : String := "tmp"

/-- The mutable state of `Editor` (source lines 55-67).  The terminal handle
is reduced to its size; `init_time` lives in `Env`; the `StatusMessage`
timestamp is not modelled (no claim depends on expiry). -/
structure EditorState where
  should_quit : Bool
  cursor_position : Position
  offset : Position
  document : Document
  status_message : String
  quit_times : Nat
  highlighted_word : Option String
  since_last_backup : Nat
  editor_cache : String
  term_width : Nat
  term_height : Nat

/-- `Editor::status` (source lines 199-206): replace the status message,
prefixed with the elapsed session seconds.  The `refresh` flag redraws the
screen, which has no effect on the modelled state (the `refresh_ui` result is
discarded by the source). -/
def status (env : Env) (s : EditorState) (msg : String) (_refresh : Bool) : EditorState :=
  { s with status_message := "[" ++ toString env.elapsedSecs ++ "] " ++ msg }

/-- `Editor::scroll` (source lines 295-310); all arithmetic saturating, which
is `Nat` arithmetic. -/
def scroll (s : EditorState) : EditorState :=
  let x := s.cursor_position.x
  let y := s.cursor_position.y
  let width := s.term_width
  let height := s.term_height
  let oy :=
    if y < s.offset.y then y
    else if s.offset.y + height ≤ y then y - height + 1
    else s.offset.y
  let ox :=
    if x < s.offset.x then x
    else if s.offset.x + width ≤ x then x - width + 1
    else s.offset.x
  { s with offset := { x := ox, y := oy } }

/-- `Editor::move_cursor` (source lines 311-375).  The `match` computes the
tentative `(x, y)`; afterwards `x` is re-clamped to the target row's width
(source lines 365-372). -/
def move_cursor (s : EditorState) (key : Key) : EditorState :=
  let terminal_height := s.term_height
  let y0 := s.cursor_position.y
  let x0 := s.cursor_position.x
  let height := s.document.len
  let width0 := rowLen s.document y0
  let p : Nat × Nat :=
    match key with
    | Key.Up => (x0, y0 - 1)
    | Key.Down => if y0 < height then (x0, y0 + 1) else (x0, y0)
    | Key.Left =>
        if 0 < x0 then (x0 - 1, y0)
        else if 0 < y0 then (rowLen s.document (y0 - 1), y0 - 1)
        else (x0, y0)
    | Key.Right =>
        if x0 < width0 then (x0 + 1, y0)
        else if y0 < height then (0, y0 + 1)
        else (x0, y0)
    | Key.PageUp => (x0, if terminal_height < y0 then y0 - terminal_height else 0)
    | Key.PageDown => (x0, if y0 + terminal_height < height then y0 + terminal_height else height)
    | Key.Home => (0, y0)
    | Key.End => (width0, y0)
    | _ => (x0, y0)
  let width := rowLen s.document p.2
  let x := if width < p.1 then width else p.1
  { s with cursor_position := { x := x, y := p.2 } }

theorem move_cursor_document (s : EditorState) (k : Key) :
    (move_cursor s k).document = s.document := rfl

theorem move_cursor_quit_times (s : EditorState) (k : Key) :
    (move_cursor s k).quit_times = s.quit_times := rfl

theorem scroll_quit_times (s : EditorState) :
    (scroll s).quit_times = s.quit_times := rfl

theorem status_quit_times (env : Env) (s : EditorState) (m : String) (r : Bool) :
    (status env s m r).quit_times = s.quit_times := rfl

/-- After one `move_cursor`, the vertical coordinate stays within
`[0, documentLineCount]` (given it started there). -/
theorem move_cursor_y_le (s : EditorState) (k : Key)
    (h : s.cursor_position.y ≤ s.document.len) :
    (move_cursor s k).cursor_position.y ≤ s.document.len := by
  cases k <;> simp only [move_cursor] <;>
    first
    | (split_ifs <;> omega)
    | omega

/-- After one `move_cursor`, the horizontal coordinate is clamped into
`[0, lengthOfRow y]` unconditionally (final clamp of the source). -/
theorem move_cursor_x_le (s : EditorState) (k : Key) :
    (move_cursor s k).cursor_position.x ≤
      rowLen s.document (move_cursor s k).cursor_position.y := by
  cases k <;> simp only [move_cursor] <;>
    first
    | (split_ifs <;> omega)
    | omega

/-- Rust `char::is_control`: the Unicode `Cc` category,
`U+0000..U+001F` and `U+007F..U+009F` (used at source line 478). -/
def charIsControl (c : Char) : Bool :=
  decide (c.toNat < 32) || decide (127 ≤ c.toNat ∧ c.toNat ≤ 159)

/-- UTF-8 byte length of the accumulated prompt input: Rust's `String::len`
counts bytes, not characters. -/
def byteLen (r : List Char) : Nat :=
  r.foldl (fun n c => n + c.utf8Size) 0

/-- Rust `String::truncate(new_len)` on a string given as its character list:
keeps the longest prefix of at most `new_len` bytes; `none` models the panic
raised when `new_len` is not on a character boundary.  Truncating to a length
at least the string's byte length is a no-op. -/
def truncateBytes : List Char → Nat → Option (List Char)
  | _, 0 => some []
  | [], _ + 1 => some []
  | c :: cs, n + 1 =>
      if c.utf8Size ≤ n + 1 then (truncateBytes cs (n + 1 - c.utf8Size)).map (c :: ·)
      else none

/-- Result of a `prompt` run (source lines 466-495).  `A` is the type of the
mutable state captured by the `FnMut` callback (`Unit` for plain prompts, the
search direction for the Search Navigator).  Each constructor carries the
ghost `log` of the keys on which the callback was actually invoked. -/
inductive PromptRes (A : Type)
  /-- The loop hit `break` (Enter or Escape) and `prompt` returned
  `Ok(res)` — `none` for an empty or cancelled input. -/
  | finished (a : A) (s : EditorState) (res : Option (List Char))
      (rest : List KeyRead) (log : List Key)
  /-- `Terminal::read_key()?` propagated an `Err` out of `prompt`. -/
  | ioError (a : A) (s : EditorState) (rest : List KeyRead) (log : List Key)
  /-- The modelled input was exhausted: the blocking read never returns. -/
  | blocked (log : List Key)
  /-- `String::truncate` panicked on a non-boundary byte index. -/
  | panicked (log : List Key)

/-- The ghost callback log of a prompt run. -/
def PromptRes.log {A : Type} : PromptRes A → List Key
  | .finished _ _ _ _ l => l
  | .ioError _ _ _ l => l
  | .blocked l => l
  | .panicked l => l

/-- Whether a prompt run ended in `break` + `Ok`. -/
def PromptRes.isFinished {A : Type} : PromptRes A → Bool
  | .finished _ _ _ _ _ => true
  | _ => false

/-- Whether a prompt run panicked. -/
def PromptRes.isPanicked {A : Type} : PromptRes A → Bool
  | .panicked _ => true
  | _ => false

/-- The editor state at the point `prompt` hands control back to its caller
(`none` if it never does). -/
def PromptRes.stateOf {A : Type} : PromptRes A → Option EditorState
  | .finished _ s _ _ _ => some s
  | .ioError _ s _ _ => some s
  | _ => none

/-- The `break`-and-return tail of `prompt` (source lines 490-494):
`self.status("", false)`, then an empty collected string becomes `Ok(None)`. -/
def finishPrompt {A : Type} (env : Env) (a : A) (s : EditorState)
    (result : List Char) (rest : List KeyRead) (log : List Key) : PromptRes A :=
  let s2 := status env s "" false
  if result.isEmpty then PromptRes.finished a s2 none rest log
  else PromptRes.finished a s2 (some result) rest log

/-- `Editor::prompt` (source lines 466-495).  Each iteration displays
`prompt ++ result` as the live status, reads one key, applies it to the
accumulating input, and — except on the two `break` arms (Enter, Escape) —
invokes the callback with the key and the current input.  `cb` threads the
captured mutable state `A` alongside the editor state. -/
def promptLoop {A : Type} (env : Env) (pr : String)
    (cb : A → EditorState → Key → List Char → A × EditorState) :
    List KeyRead → A → EditorState → List Char → List Key → PromptRes A
  | [], _, _, _, log => PromptRes.blocked log
  | none :: rest, a, s, result, log =>
      PromptRes.ioError a (status env s (pr ++ String.mk result) true) rest log
  | some k :: rest, a, s, result, log =>
      let s1 := status env s (pr ++ String.mk result) true
      match k with
      | Key.Backspace =>
          match truncateBytes result (byteLen result - 1) with
          | none => PromptRes.panicked log
          | some r2 =>
              let p := cb a s1 Key.Backspace r2
              promptLoop env pr cb rest p.1 p.2 r2 (log ++ [Key.Backspace])
      | Key.Char c =>
          if c = '\n' then finishPrompt env a s1 result rest log
          else
            let r2 := if !charIsControl c then result ++ [c] else result
            let p := cb a s1 (Key.Char c) r2
            promptLoop env pr cb rest p.1 p.2 r2 (log ++ [Key.Char c])
      | Key.Esc => finishPrompt env a s1 [] rest log
      | _ =>
          let p := cb a s1 k result
          promptLoop env pr cb rest p.1 p.2 result (log ++ [k])

/-- Result of a dispatched sub-command that may read further keys
(`save`, `search`, `command_mode`). -/
inductive CallRes
  | ok (s : EditorState) (rest : List KeyRead)
  | blockedC
  | panickedC

/-- The state a sub-command returned with, if it returned. -/
def CallRes.okState : CallRes → Option EditorState
  | .ok s _ => some s
  | _ => none

/-- The do-nothing callback of the save-as prompt (`|_, _, _| {}`,
source line 138). -/
def trivialCb : Unit → EditorState → Key → List Char → Unit × EditorState :=
  fun a s _ _ => (a, s)

/-- The `self.document.save()` call of `Editor::save` (source lines 146-150).
The `Document::save` method is not under `src/`; modelled from the spec:
"save persists to the user-chosen file" and clears the dirty flag (Glossary:
dirty = "unsaved modifications since the last save"); its success is decided
by `env.docSaveOk`. -/
def doSave (env : Env) (s : EditorState) (rest : List KeyRead) : CallRes :=
  if env.docSaveOk then
    CallRes.ok
      (status env { s with document := { s.document with dirty := false } } "__save_ok__" false)
      rest
  else CallRes.ok (status env s "__error_saving__" false) rest

/-- `Editor::save` (source lines 136-151).  A missing file name first runs the
save-as prompt; `prompt(..).unwrap_or(None)` turns a propagated read error
into `None` (abort). -/
def save (env : Env) (s : EditorState) (keys : List KeyRead) : CallRes :=
  if s.document.file_name.isNone then
    match promptLoop env "__save_as__: " trivialCb keys () s [] [] with
    | .blocked _ => CallRes.blockedC
    | .panicked _ => CallRes.panickedC
    | .ioError _ s1 rest _ => CallRes.ok (status env s1 "__save_aborted__" true) rest
    | .finished _ s1 res rest _ =>
        match res with
        | none => CallRes.ok (status env s1 "__save_aborted__" true) rest
        | some new_name =>
            doSave env
              { s1 with document := { s1.document with file_name := some (String.mk new_name) } }
              rest
  else doSave env s keys

/-- `Editor::paste` (source lines 152-159): both clipboard calls are
`unwrap`ped, so a failing clipboard (`env.clipboard = none`) aborts the
process; otherwise a status is emitted and every clipboard character is
inserted at the (never-moved) cursor position, iterating in reverse. -/
def paste (env : Env) (s : EditorState) : Option EditorState :=
  match env.clipboard with
  | none => none
  | some data =>
      let s := status env s "__pasted__" false
      some
        { s with
            document :=
              data.toList.reverse.foldl (fun d e => d.insert s.cursor_position e) s.document }

/-- The backup target path (source lines 162-166): `<file name>.tmp`, or the
fixed fallback for unnamed documents. -/
def cacheFileOf (s : EditorState) : String :=
  match s.document.file_name with
  | some fname => fname ++ ".tmp"
  | none => s.editor_cache

/-- The write loop of `Editor::backup` (source lines 169-176).  `n` numbers
the `write_all` calls of this invocation; a `write_all` either writes all its
bytes or none (atomicity abstraction).  A failing row-content write sets
`all_ok := false` and skips that row's terminator write; the result of a
terminator write is discarded by the source, so its failure neither marks the
operation failed nor stops anything.  Returns (bytes written, `all_ok`). -/
def backupWrites (w : Nat → Bool) : List (List Char) → Nat → List Char × Bool
  | [], _ => ([], true)
  | line :: ls, n =>
      if w n then
        let nlBytes := if w (n + 1) then ['\n'] else []
        let rest := backupWrites w ls (n + 2)
        (line ++ nlBytes ++ rest.1, rest.2)
      else
        let rest := backupWrites w ls (n + 1)
        (rest.1, false)

/-- `Editor::backup` (source lines 160-181).  `fs::File::create(..).unwrap()`
aborts the process on failure (`none`).  On `all_ok` a status naming the
backup path is emitted and the keystroke counter resets; otherwise the state
is left untouched (no status, no reset).  Also returns the target path and
the bytes written, for inspection. -/
def backup (env : Env) (s : EditorState) : Option (EditorState × String × List Char) :=
  let cache_file := cacheFileOf s
  if env.fileCreateOk then
    let w := backupWrites env.writeOk s.document.doc_read 0
    some
      (if w.2 then
          { status env s ("__backed_up__:" ++ cache_file) false with since_last_backup := 0 }
        else s,
        cache_file, w.1)
  else none

/-- `Editor::command_mode` (source lines 183-197): echo-only mode; a read
error re-enters the loop (`if let Ok(k)`), a character key appends to the
buffer after echoing it, any other key exits. -/
def command_mode (env : Env) (s : EditorState) : List KeyRead → String → CallRes
  | [], _ => CallRes.blockedC
  | none :: rest, command => command_mode env s rest command
  | some k :: rest, command =>
      match k with
      | Key.Char c => command_mode env (status env s command true) rest (command.push c)
      | _ => CallRes.ok s rest

/-- The search-prompt callback (source lines 215-237), closing over the
mutable `direction`. -/
def searchCallback (env : Env) :
    SearchDirection → EditorState → Key → List Char → SearchDirection × EditorState :=
  fun _direction editor key query =>
    let dem : SearchDirection × EditorState × Bool :=
      match key with
      | Key.Right | Key.Down => (SearchDirection.Forward, move_cursor editor Key.Right, true)
      | Key.Left | Key.Up => (SearchDirection.Backward, editor, false)
      | _ => (SearchDirection.Forward, editor, false)
    let direction := dem.1
    let editor := dem.2.1
    let moved := dem.2.2
    let editor :=
      match env.find editor.document (String.mk query) editor.cursor_position direction with
      | some position => scroll { editor with cursor_position := position }
      | none => if moved then move_cursor editor Key.Left else editor
    (direction, { editor with highlighted_word := some (String.mk query) })

/-- `Editor::search` (source lines 209-246).  The prompt result is collapsed
with `unwrap_or(None)`; on a `None` query the pre-search cursor is restored
and rescrolled; `highlighted_word` is cleared unconditionally before
returning. -/
def search (env : Env) (s : EditorState) (keys : List KeyRead) : CallRes :=
  let old_position := s.cursor_position
  match promptLoop env "search (esc:cancel, arrows:navigate): " (searchCallback env)
      keys SearchDirection.Forward s [] [] with
  | .blocked _ => CallRes.blockedC
  | .panicked _ => CallRes.panickedC
  | .ioError _ s1 rest _ =>
      let s2 := scroll { s1 with cursor_position := old_position }
      CallRes.ok { s2 with highlighted_word := none } rest
  | .finished _ s1 res rest _ =>
      let s2 :=
        if res.isNone then scroll { s1 with cursor_position := old_position } else s1
      CallRes.ok { s2 with highlighted_word := none } rest

/-- Result of one `process_keypress` call (source lines 247-294):
`cont keepAlive` is `Ok(keepAlive)`, `ioErr` is the `Err` propagated by
`Terminal::read_key()?`, and `panicked`/`blocked` model an aborting `unwrap`
or an input-starved nested read. -/
inductive StepResult
  | cont (keepAlive : Bool) (s : EditorState) (rest : List KeyRead)
  | ioErr (s : EditorState) (rest : List KeyRead)
  | panicked
  | blocked

/-- The state carried by a normal `Ok` return, if any. -/
def StepResult.contState : StepResult → Option EditorState
  | .cont _ s _ => some s
  | _ => none

/-- The `Ok` payload (`keep_alive`), if any. -/
def StepResult.keepAliveOf : StepResult → Option Bool
  | .cont b _ _ => some b
  | _ => none

/-- The common tail of `process_keypress` (source lines 288-293): rescroll,
then reset a decremented quit counter to `QUIT_TIMES` and blank the status
(a raw `StatusMessage::from(String::new())`, without the time prefix). -/
def finish_keypress (s : EditorState) : EditorState :=
  let s := scroll s
  if s.quit_times < QUIT_TIMES then { s with quit_times := QUIT_TIMES, status_message := "" }
  else s

/-- Lift a sub-command result into a `StepResult` through the common tail. -/
def stepOfCall : CallRes → StepResult
  | .ok s rest => StepResult.cont true (finish_keypress s) rest
  | .blockedC => StepResult.blocked
  | .panickedC => StepResult.panicked

/-- The backup trigger at the top of `process_keypress` (source lines
249-252), applied to the state whose keystroke counter was already
incremented: at the threshold, `self.backup()` runs (and may abort on its
`unwrap`, hence the `Option`). -/
def backupTrigger (env : Env) (s1 : EditorState) : Option EditorState :=
  if BACKUP_AT ≤ s1.since_last_backup then (backup env s1).map (fun r => r.1) else some s1

/-- The `match pressed_key` dispatcher of `process_keypress` (source lines
253-293), including the common tail (`finish_keypress`).  The quit arm
returns early with `Ok(quit_times > 0)` — skipping the tail — only when the
document is dirty and `quit_times > 0`; the ordered `Ctrl` patterns of the
source `match` are rendered as an `if` chain on the control character. -/
def dispatch (env : Env) (s : EditorState) (rest : List KeyRead) (pressed_key : Key) :
    StepResult :=
  match pressed_key with
  | Key.Ctrl c =>
      if c = 'q' then
        if 0 < s.quit_times ∧ s.document.is_dirty = true then
          let s2 := status env s
            ("__warn__:unsaved changes. hit ctrl-q " ++ toString s.quit_times ++
              " more times to quit.") true
          let s3 := { s2 with quit_times := s2.quit_times - 1 }
          StepResult.cont (decide (0 < s3.quit_times)) s3 rest
        else StepResult.cont true (finish_keypress { s with should_quit := true }) rest
      else if c = 's' then stepOfCall (save env s rest)
      else if c = 'f' then stepOfCall (search env s rest)
      else if c = 'b' then
        match backup env s with
        | none => StepResult.panicked
        | some r => StepResult.cont true (finish_keypress r.1) rest
      else if c = 'v' then
        match paste env s with
        | none => StepResult.panicked
        | some s2 => StepResult.cont true (finish_keypress s2) rest
      else if c = 'x' then stepOfCall (command_mode env s rest "::")
      else StepResult.cont true (finish_keypress s) rest
  | Key.Char c =>
      StepResult.cont true
        (finish_keypress
          (move_cursor { s with document := s.document.insert s.cursor_position c } Key.Right))
        rest
  | Key.Delete =>
      StepResult.cont true
        (finish_keypress { s with document := s.document.delete s.cursor_position }) rest
  | Key.Backspace =>
      if 0 < s.cursor_position.x ∨ 0 < s.cursor_position.y then
        let s2 := move_cursor s Key.Left
        StepResult.cont true
          (finish_keypress { s2 with document := s2.document.delete s2.cursor_position }) rest
      else StepResult.cont true (finish_keypress s) rest
  | Key.Up | Key.Down | Key.Left | Key.Right
  | Key.PageUp | Key.PageDown | Key.End | Key.Home =>
      StepResult.cont true (finish_keypress (move_cursor s pressed_key)) rest
  | _ => StepResult.cont true (finish_keypress s) rest

/-- `Editor::process_keypress` (source lines 247-294): read one key
(propagating a read error before anything else), increment the keystroke
counter, run the backup trigger, then dispatch. -/
def processKeypress (env : Env) (s0 : EditorState) : List KeyRead → StepResult
  | [] => StepResult.blocked
  | none :: rest => StepResult.ioErr s0 rest
  | some pressed_key :: rest =>
      match backupTrigger env
          { s0 with since_last_backup := (s0.since_last_backup + 1) % 4294967296 } with
      | none => StepResult.panicked
      | some s => dispatch env s rest pressed_key

/-- Final outcome of iterating the `run` loop (source lines 70-85) with all
screen refreshes succeeding, for a bounded number of iterations. -/
inductive RunResult
  | exited (s : EditorState)
  | running (s : EditorState) (keys : List KeyRead)
  | blockedRun
  | panickedRun
  | abortedRun

/-- Whether the loop broke out (normal exit). -/
def RunResult.isExited : RunResult → Bool
  | .exited _ => true
  | _ => false

/-- Whether the loop is still blocked waiting for a key. -/
def RunResult.isBlockedRun : RunResult → Bool
  | .blockedRun => true
  | _ => false

/-- The `run` loop (source lines 70-85) iterated `fuel` times, with every
`refresh_ui` succeeding: `Ok(true)` keeps looping, `Ok(false)` breaks,
`Err(e)` calls `die(e)` with no backup attempt. -/
def runLoop (env : Env) : Nat → EditorState → List KeyRead → RunResult
  | 0, s, ks => RunResult.running s ks
  | n + 1, s, ks =>
      match processKeypress env s ks with
      | .cont true s2 rest => runLoop env n s2 rest
      | .cont false s2 _ => RunResult.exited s2
      | .ioErr _ _ => RunResult.abortedRun
      | .panicked => RunResult.panickedRun
      | .blocked => RunResult.blockedRun

/-- Outcome of a single `run` iteration with an explicit render outcome. -/
inductive IterResult
  /-- `refresh_ui` failed: `self.backup(); die(error)` — one emergency backup
  attempt (whose own outcome is recorded) and then the process aborts. -/
  | dieAfterBackupAttempt (backupOutcome : Option (EditorState × String × List Char))
  /-- `process_keypress` returned `Err`: `die(e)` with no backup attempt. -/
  | dieNoBackup
  | continueLoop (s : EditorState) (rest : List KeyRead)
  | exitLoop (s : EditorState)
  | blockedIter
  | panickedIter

/-- One iteration of `run` (source lines 70-82): render, then read/dispatch. -/
def runIter (env : Env) (renderOk : Bool) (s : EditorState) (keys : List KeyRead) : IterResult :=
  if renderOk then
    match processKeypress env s keys with
    | .cont true s2 rest => IterResult.continueLoop s2 rest
    | .cont false s2 _ => IterResult.exitLoop s2
    | .ioErr _ _ => IterResult.dieNoBackup
    | .panicked => IterResult.panickedIter
    | .blocked => IterResult.blockedIter
  else IterResult.dieAfterBackupAttempt (backup env s)

/-- `Editor::default` (source lines 86-115) for a given already-opened
document, with a fixed 80×24 terminal. -/
def defaultEditor (document : Document) : EditorState :=
  { should_quit := false
    cursor_position := { x := 0, y := 0 }
    offset := { x := 0, y := 0 }
    document := document
    status_message := "ctrl-f:'find' | ctrl-s:'save' | ctrl-q:'quit' | ctrl-b:'temporary backup'"
    quit_times := QUIT_TIMES
    highlighted_word := none
    since_last_backup := 0
    editor_cache := CACHE_FILE
    term_width := 80
    term_height := 24 }

/-! ### Fixtures for concrete runs -/

/-- A benign environment: everything external succeeds, the clipboard is
empty, `find` never matches. -/
def env0 : Env :=
  { clipboard := some ""
    fileCreateOk := true
    writeOk := fun _ => true
    docSaveOk := true
    elapsedSecs := 0
    find := fun _ _ _ _ => none }

/-- An empty, never-modified, unnamed document. -/
def cleanDoc : Document := { rows := [], dirty := false, file_name := none }

/-- A one-row document with unsaved changes. -/
def dirtyDoc : Document := { rows := [String.toList "x"], dirty := true, file_name := none }

/-- A fresh session on the dirty document. -/
def dirtyState : EditorState := defaultEditor dirtyDoc

/-- A fresh session on the clean document. -/
def cleanState : EditorState := defaultEditor cleanDoc

/-- The quit keypress. -/
def qk : KeyRead := some (Key.Ctrl 'q')

/-- An ordinary character keypress. -/
def ak : KeyRead := some (Key.Char 'a')

/-! ### Preservation of the quit counter by non-quit operations -/

theorem finish_keypress_quit_times (s : EditorState) (h : s.quit_times ≤ QUIT_TIMES) :
    (finish_keypress s).quit_times = QUIT_TIMES := by
  simp only [finish_keypress]
  split_ifs with h2
  · rfl
  · have hs : (scroll s).quit_times = s.quit_times := rfl
    rw [hs] at h2 ⊢
    omega

theorem promptLoop_quit_times {A : Type} (env : Env) (pr : String)
    (cb : A → EditorState → Key → List Char → A × EditorState)
    (hcb : ∀ a s k r, (cb a s k r).2.quit_times = s.quit_times) :
    ∀ (ks : List KeyRead) (a : A) (s : EditorState) (r : List Char) (log : List Key),
      ((promptLoop env pr cb ks a s r log).stateOf.all
        fun s2 => s2.quit_times == s.quit_times) = true := by
  intro ks
  induction ks with
  | nil => intro a s r log; rfl
  | cons e rest ih =>
    intro a s r log
    have key : ∀ (a2 : A) (s2 : EditorState) (r2 : List Char) (log2 : List Key),
        s2.quit_times = s.quit_times →
        ((promptLoop env pr cb rest a2 s2 r2 log2).stateOf.all
          fun t => t.quit_times == s.quit_times) = true := by
      intro a2 s2 r2 log2 hq
      rw [← hq]
      exact ih a2 s2 r2 log2
    cases e with
    | none => simp [promptLoop, PromptRes.stateOf, status_quit_times]
    | some k =>
      cases k with
      | Backspace =>
          simp only [promptLoop]
          cases htr : truncateBytes r (byteLen r - 1) with
          | none => rfl
          | some r2 => exact key _ _ _ _ ((hcb _ _ _ _).trans rfl)
      | Char c =>
          simp only [promptLoop]
          by_cases hc : c = '\n'
          · subst hc
            simp only [if_pos rfl, finishPrompt]
            split_ifs <;> simp [PromptRes.stateOf, status_quit_times]
          · rw [if_neg hc]
            exact key _ _ _ _ ((hcb _ _ _ _).trans rfl)
      | Esc =>
          simp only [promptLoop, finishPrompt]
          split_ifs <;> simp [PromptRes.stateOf, status_quit_times]
      | Up => exact key _ _ _ _ ((hcb _ _ _ _).trans rfl)
      | Down => exact key _ _ _ _ ((hcb _ _ _ _).trans rfl)
      | Left => exact key _ _ _ _ ((hcb _ _ _ _).trans rfl)
      | Right => exact key _ _ _ _ ((hcb _ _ _ _).trans rfl)
      | PageUp => exact key _ _ _ _ ((hcb _ _ _ _).trans rfl)
      | PageDown => exact key _ _ _ _ ((hcb _ _ _ _).trans rfl)
      | Home => exact key _ _ _ _ ((hcb _ _ _ _).trans rfl)
      | End => exact key _ _ _ _ ((hcb _ _ _ _).trans rfl)
      | Delete => exact key _ _ _ _ ((hcb _ _ _ _).trans rfl)
      | Ctrl c => exact key _ _ _ _ ((hcb _ _ _ _).trans rfl)
      | Other => exact key _ _ _ _ ((hcb _ _ _ _).trans rfl)

theorem searchCallback_quit_times (env : Env) (d : SearchDirection) (ed : EditorState)
    (k : Key) (q : List Char) :
    ((searchCallback env d ed k q).2).quit_times = ed.quit_times := by
  cases k <;> simp only [searchCallback] <;>
    (split <;> first | rfl | (split <;> rfl))

theorem save_quit_times (env : Env) (s : EditorState) (keys : List KeyRead) :
    ((save env s keys).okState.all fun s2 => s2.quit_times == s.quit_times) = true := by
  have hp := promptLoop_quit_times env "__save_as__: " trivialCb (fun _ _ _ _ => rfl)
      keys () s [] []
  unfold save
  split
  · cases hpl : promptLoop env "__save_as__: " trivialCb keys () s [] [] with
    | finished a s1 res rest log =>
        rw [hpl] at hp
        simp only [PromptRes.stateOf, Option.all, beq_iff_eq] at hp
        cases res with
        | none => simp [CallRes.okState, status_quit_times, hp]
        | some nm =>
            simp only [doSave]
            split_ifs <;> simp [CallRes.okState, status_quit_times, hp]
    | ioError a s1 rest log =>
        rw [hpl] at hp
        simp only [PromptRes.stateOf, Option.all, beq_iff_eq] at hp
        simp [CallRes.okState, status_quit_times, hp]
    | blocked log => rfl
    | panicked log => rfl
  · simp only [doSave]
    split_ifs <;> simp [CallRes.okState, status_quit_times]

theorem search_quit_times (env : Env) (s : EditorState) (keys : List KeyRead) :
    ((search env s keys).okState.all fun s2 => s2.quit_times == s.quit_times) = true := by
  have hp := promptLoop_quit_times env "search (esc:cancel, arrows:navigate): "
      (searchCallback env) (fun a t k r => searchCallback_quit_times env a t k r)
      keys SearchDirection.Forward s [] []
  unfold search
  cases hpl : promptLoop env "search (esc:cancel, arrows:navigate): " (searchCallback env)
      keys SearchDirection.Forward s [] [] with
  | finished a s1 res rest log =>
      rw [hpl] at hp
      simp only [PromptRes.stateOf, Option.all, beq_iff_eq] at hp
      dsimp only
      split <;> simp [CallRes.okState, scroll_quit_times, hp]
  | ioError a s1 rest log =>
      rw [hpl] at hp
      simp only [PromptRes.stateOf, Option.all, beq_iff_eq] at hp
      simp [CallRes.okState, scroll_quit_times, hp]
  | blocked log => rfl
  | panicked log => rfl

theorem command_mode_quit_times (env : Env) :
    ∀ (ks : List KeyRead) (s : EditorState) (cmd : String),
      ((command_mode env s ks cmd).okState.all fun s2 => s2.quit_times == s.quit_times) = true := by
  intro ks
  induction ks with
  | nil => intro s cmd; rfl
  | cons e rest ih =>
    intro s cmd
    cases e with
    | none => exact ih s cmd
    | some k =>
      cases k with
      | Char c => exact ih (status env s cmd true) (cmd.push c)
      | _ => simp [command_mode, CallRes.okState]

theorem paste_state_quit_times (env : Env) (s s2 : EditorState)
    (h : paste env s = some s2) : s2.quit_times = s.quit_times := by
  unfold paste at h
  cases hc : env.clipboard with
  | none => rw [hc] at h; cases h
  | some data =>
      rw [hc] at h
      simp only [Option.some.injEq] at h
      subst h
      rfl

theorem backup_state_quit_times (env : Env) (s : EditorState)
    (r : EditorState × String × List Char) (h : backup env s = some r) :
    r.1.quit_times = s.quit_times := by
  unfold backup at h
  split_ifs at h
  simp only [Option.some.injEq] at h
  subst h
  dsimp only
  split <;> rfl

theorem cont_finish_reset (s2 : EditorState) (rest : List KeyRead)
    (h : s2.quit_times ≤ QUIT_TIMES) :
    ((StepResult.cont true (finish_keypress s2) rest).contState.all
      fun t => t.quit_times == QUIT_TIMES) = true := by
  simp [StepResult.contState, Option.all, finish_keypress_quit_times s2 h]

theorem stepOfCall_reset (c : CallRes) (q : Nat)
    (hc : (c.okState.all fun s2 => s2.quit_times == q) = true) (hq : q ≤ QUIT_TIMES) :
    ((stepOfCall c).contState.all fun s2 => s2.quit_times == QUIT_TIMES) = true := by
  cases c with
  | ok s rest =>
      simp only [CallRes.okState, Option.all, beq_iff_eq] at hc
      exact cont_finish_reset s rest (by omega)
  | blockedC => rfl
  | panickedC => rfl

theorem backupTrigger_quit_times (env : Env) (s1 t : EditorState)
    (h : backupTrigger env s1 = some t) : t.quit_times = s1.quit_times := by
  unfold backupTrigger at h
  split_ifs at h
  · cases hb : backup env s1 with
    | none => rw [hb] at h; cases h
    | some r =>
        rw [hb] at h
        simp only [Option.map_some', Option.some.injEq] at h
        subst h
        exact backup_state_quit_times env s1 r hb
  · simp only [Option.some.injEq] at h
    subst h
    rfl

theorem dispatch_reset (env : Env) (s : EditorState) (rest : List KeyRead) (k : Key)
    (hk : k ≠ Key.Ctrl 'q') (hq : s.quit_times ≤ QUIT_TIMES) :
    ((dispatch env s rest k).contState.all fun s2 => s2.quit_times == QUIT_TIMES) = true := by
  cases k with
  | Ctrl c =>
      by_cases hcq : c = 'q'
      · exact absurd (by rw [hcq]) hk
      by_cases hcs : c = 's'
      · subst hcs
        exact stepOfCall_reset (save env s rest) s.quit_times (save_quit_times env s rest) hq
      by_cases hcf : c = 'f'
      · subst hcf
        exact stepOfCall_reset (search env s rest) s.quit_times (search_quit_times env s rest) hq
      by_cases hcb : c = 'b'
      · subst hcb
        have hd : dispatch env s rest (Key.Ctrl 'b') =
            (match backup env s with
              | none => StepResult.panicked
              | some r => StepResult.cont true (finish_keypress r.1) rest) := rfl
        rw [hd]
        cases hb : backup env s with
        | none => rfl
        | some r =>
            exact cont_finish_reset r.1 rest
              (by rw [backup_state_quit_times env s r hb]; exact hq)
      by_cases hcv : c = 'v'
      · subst hcv
        have hd : dispatch env s rest (Key.Ctrl 'v') =
            (match paste env s with
              | none => StepResult.panicked
              | some s2 => StepResult.cont true (finish_keypress s2) rest) := rfl
        rw [hd]
        cases hb : paste env s with
        | none => rfl
        | some s2 =>
            exact cont_finish_reset s2 rest
              (by rw [paste_state_quit_times env s s2 hb]; exact hq)
      by_cases hcx : c = 'x'
      · subst hcx
        exact stepOfCall_reset (command_mode env s rest "::") s.quit_times
          (command_mode_quit_times env rest s "::") hq
      · simp only [dispatch, if_neg hcq, if_neg hcs, if_neg hcf, if_neg hcb, if_neg hcv,
          if_neg hcx]
        exact cont_finish_reset s rest hq
  | Char c => exact cont_finish_reset _ rest hq
  | Delete => exact cont_finish_reset _ rest hq
  | Backspace =>
      have hd : dispatch env s rest Key.Backspace =
          (if 0 < s.cursor_position.x ∨ 0 < s.cursor_position.y then
            StepResult.cont true
              (finish_keypress
                { move_cursor s Key.Left with
                    document :=
                      (move_cursor s Key.Left).document.delete
                        (move_cursor s Key.Left).cursor_position })
              rest
          else StepResult.cont true (finish_keypress s) rest) := rfl
      rw [hd]
      split_ifs
      · exact cont_finish_reset _ rest hq
      · exact cont_finish_reset s rest hq
  | Up => exact cont_finish_reset _ rest hq
  | Down => exact cont_finish_reset _ rest hq
  | Left => exact cont_finish_reset _ rest hq
  | Right => exact cont_finish_reset _ rest hq
  | PageUp => exact cont_finish_reset _ rest hq
  | PageDown => exact cont_finish_reset _ rest hq
  | Home => exact cont_finish_reset _ rest hq
  | End => exact cont_finish_reset _ rest hq
  | Esc => exact cont_finish_reset s rest hq
  | Other => exact cont_finish_reset s rest hq

theorem processKeypress_nonquit_resets (env : Env) (s : EditorState) (ks : List KeyRead)
    (k : Key) (hk : k ≠ Key.Ctrl 'q') (hq : s.quit_times ≤ QUIT_TIMES) :
    ((processKeypress env s (some k :: ks)).contState.all
      fun s2 => s2.quit_times == QUIT_TIMES) = true := by
  have hd : processKeypress env s (some k :: ks) =
      (match backupTrigger env
          { s with since_last_backup := (s.since_last_backup + 1) % 4294967296 } with
        | none => StepResult.panicked
        | some t => dispatch env t ks k) := rfl
  rw [hd]
  cases hb : backupTrigger env
      { s with since_last_backup := (s.since_last_backup + 1) % 4294967296 } with
  | none => rfl
  | some t =>
      have ht : t.quit_times ≤ QUIT_TIMES := by
        rw [backupTrigger_quit_times env _ t hb]; exact hq
      exact dispatch_reset env t ks k hk ht

/-! ### Claim C7 -/

/-- C7: for every sequence of `move_cursor` calls starting from a cursor
satisfying the invariant (as the initial cursor `(0,0)` does), the cursor
afterwards satisfies `y ∈ [0, documentLineCount]` and
`x ∈ [0, lengthOfRow y]`, where a row past the document's end has length 0. -/
theorem move_cursor_invariant (ks : List Key) (s : EditorState)
    (hy : s.cursor_position.y ≤ s.document.len)
    (hx : s.cursor_position.x ≤ rowLen s.document s.cursor_position.y) :
    (ks.foldl move_cursor s).cursor_position.y ≤ (ks.foldl move_cursor s).document.len ∧
    (ks.foldl move_cursor s).cursor_position.x ≤
      rowLen (ks.foldl move_cursor s).document (ks.foldl move_cursor s).cursor_position.y := by
  induction ks generalizing s with
  | nil => exact ⟨hy, hx⟩
  | cons k ks ih =>
      simp only [List.foldl_cons]
      exact ih (move_cursor s k)
        (by rw [move_cursor_document]; exact move_cursor_y_le s k hy)
        (by rw [move_cursor_document]; exact move_cursor_x_le s k)

/-- A two-row document for the C7 witness. -/
def doc7 : Document :=
  { rows := [String.toList "ab", String.toList "c"], dirty := false, file_name := none }

/-- The C7 witness state after four cursor moves. -/
def moved7 : EditorState :=
  [Key.Down, Key.End, Key.Right, Key.PageDown].foldl move_cursor (defaultEditor doc7)

/-- Witness for C7 at a concrete document and key sequence. -/
theorem move_cursor_invariant_witness :
    moved7.cursor_position.y ≤ moved7.document.len ∧
    moved7.cursor_position.x ≤ rowLen moved7.document moved7.cursor_position.y :=
  move_cursor_invariant [Key.Down, Key.End, Key.Right, Key.PageDown] (defaultEditor doc7)
    (by decide) (by decide)

/-! ### Claim C1 -/

/-- C1 (the claim fails on the code — a code bug): on a quit command with a
clean document, `process_keypress` sets `should_quit` but returns `Ok(true)`,
and `run` only breaks on `Ok(false)` (`should_quit` is never read), so the
session loop does **not** terminate: it keeps running and blocks on the next
key read. -/
theorem clean_quit_bug :
    (processKeypress env0 cleanState [qk]).keepAliveOf = some true ∧
    ((processKeypress env0 cleanState [qk]).contState.map (fun s2 => s2.should_quit)) =
      some true ∧
    runLoop env0 10 cleanState [qk] = RunResult.blockedRun :=
  ⟨rfl, rfl, rfl⟩

/-! ### Claim C3 -/

/-- Three consecutive quit presses. -/
def qlist3 : List KeyRead := [qk, qk, qk]

/-- Two consecutive quit presses. -/
def qlist2 : List KeyRead := [qk, qk]

/-- Quit, a character key, then three more quit presses. -/
def qcq3 : List KeyRead := [qk, ak, qk, qk, qk]

/-- Quit, a character key, then only two more quit presses. -/
def qcq2 : List KeyRead := [qk, ak, qk, qk]

/-- C3: with a dirty document and `quit_times = 3`, three consecutive quit
presses terminate the loop exactly on the third (two presses leave it
running); processing any non-quit keystroke restores `quit_times = 3`; and
after quit-then-character, a fresh run of three quit presses is required
(two are not enough). -/
theorem quit_flow :
    (runLoop env0 3 dirtyState qlist3).isExited = true ∧
    (runLoop env0 10 dirtyState qlist2).isBlockedRun = true ∧
    (∀ (env : Env) (s : EditorState) (ks : List KeyRead) (k : Key),
      k ≠ Key.Ctrl 'q' → s.quit_times ≤ QUIT_TIMES →
      ((processKeypress env s (some k :: ks)).contState.all
        fun s2 => s2.quit_times == QUIT_TIMES) = true) ∧
    (runLoop env0 5 dirtyState qcq3).isExited = true ∧
    (runLoop env0 10 dirtyState qcq2).isBlockedRun = true :=
  ⟨rfl, rfl, processKeypress_nonquit_resets, rfl, rfl⟩

/-- Witness for C3: the universally quantified reset conjunct applied to a
concrete non-quit keystroke. -/
theorem quit_flow_witness :
    ((processKeypress env0 dirtyState [ak]).contState.all
      fun s2 => s2.quit_times == QUIT_TIMES) = true :=
  quit_flow.2.2.1 env0 dirtyState [] (Key.Char 'a') (by decide) (by decide)

/-! ### Claims C2, C10, C9: the prompt engine and search -/

/-- The two keys on whose arms the prompt loop `break`s: Enter and Escape. -/
def isTerminator : Key → Bool
  | Key.Char c => decide (c = '\n')
  | Key.Esc => true
  | _ => false

/-- A key read that neither fails nor terminates the prompt loop. -/
def keyReadNonTerm : KeyRead → Bool
  | some k => !isTerminator k
  | none => false

theorem promptLoop_log_aux {A : Type} (env : Env) (pr : String)
    (cb : A → EditorState → Key → List Char → A × EditorState) :
    ∀ (ks : List KeyRead) (a : A) (s : EditorState) (r : List Char) (log : List Key),
      (promptLoop env pr cb ks a s r log).isPanicked = false →
      (promptLoop env pr cb ks a s r log).log =
        log ++ (ks.takeWhile keyReadNonTerm).filterMap id := by
  intro ks
  induction ks with
  | nil => intro a s r log _; simp [promptLoop, PromptRes.log]
  | cons e rest ih =>
    intro a s r log hnp
    cases e with
    | none =>
        simp [promptLoop, PromptRes.log, keyReadNonTerm, List.takeWhile_cons]
    | some k =>
      cases k
      case Backspace =>
        have hd : promptLoop env pr cb (some Key.Backspace :: rest) a s r log =
            (match truncateBytes r (byteLen r - 1) with
              | none => PromptRes.panicked log
              | some r2 =>
                  promptLoop env pr cb rest
                    (cb a (status env s (pr ++ String.mk r) true) Key.Backspace r2).1
                    (cb a (status env s (pr ++ String.mk r) true) Key.Backspace r2).2 r2
                    (log ++ [Key.Backspace])) := rfl
        rw [hd] at hnp ⊢
        cases htr : truncateBytes r (byteLen r - 1) with
        | none =>
            rw [htr] at hnp
            simp [PromptRes.isPanicked] at hnp
        | some r2 =>
            rw [htr] at hnp
            dsimp only at hnp ⊢
            rw [ih _ _ _ _ hnp]
            simp [List.takeWhile_cons, keyReadNonTerm, isTerminator]
      case Char c =>
        by_cases hc : c = '\n'
        · subst hc
          have hd : promptLoop env pr cb (some (Key.Char '\n') :: rest) a s r log =
              finishPrompt env a (status env s (pr ++ String.mk r) true) r rest log := rfl
          rw [hd]
          unfold finishPrompt
          split_ifs <;>
            simp [PromptRes.log, List.takeWhile_cons, keyReadNonTerm, isTerminator]
        · have hd : promptLoop env pr cb (some (Key.Char c) :: rest) a s r log =
              promptLoop env pr cb rest
                (cb a (status env s (pr ++ String.mk r) true) (Key.Char c)
                  (if !charIsControl c then r ++ [c] else r)).1
                (cb a (status env s (pr ++ String.mk r) true) (Key.Char c)
                  (if !charIsControl c then r ++ [c] else r)).2
                (if !charIsControl c then r ++ [c] else r)
                (log ++ [Key.Char c]) := by
            simp only [promptLoop, if_neg hc]
          rw [hd] at hnp ⊢
          rw [ih _ _ _ _ hnp]
          simp [List.takeWhile_cons, keyReadNonTerm, isTerminator, hc]
      case Esc =>
        have hd : promptLoop env pr cb (some Key.Esc :: rest) a s r log =
            finishPrompt env a (status env s (pr ++ String.mk r) true) [] rest log := rfl
        rw [hd]
        unfold finishPrompt
        split_ifs <;>
          simp [PromptRes.log, List.takeWhile_cons, keyReadNonTerm, isTerminator]
      all_goals
        exact (ih _ _ _ _ hnp).trans
          (by simp [List.takeWhile_cons, keyReadNonTerm, isTerminator])

/-- C2 counterexample: a prompt fed `a` then Enter finishes (the loop exits
via the Enter arm) but the callback log contains only `a` — the callback is
**not** invoked on the terminating Enter key, contradicting the claim. -/
theorem prompt_enter_no_callback_cex :
    (promptLoop env0 "p: " trivialCb [some (Key.Char 'a'), some (Key.Char '\n')] ()
      cleanState [] []).isFinished = true ∧
    (promptLoop env0 "p: " trivialCb [some (Key.Char 'a'), some (Key.Char '\n')] ()
      cleanState [] []).log = [Key.Char 'a'] ∧
    Key.Char '\n' ∉
      (promptLoop env0 "p: " trivialCb [some (Key.Char 'a'), some (Key.Char '\n')] ()
        cleanState [] []).log :=
  ⟨rfl, rfl, by decide⟩

/-- C2 (amended): in any non-panicking `prompt` run, the callback is invoked
exactly on the successfully read keys strictly before the first terminating
key (Enter or Escape): the loop exits on a terminator **without** invoking
the callback on it. -/
theorem prompt_callback_log {A : Type} (env : Env) (pr : String)
    (cb : A → EditorState → Key → List Char → A × EditorState) (a : A) (s : EditorState)
    (ks : List KeyRead)
    (h : (promptLoop env pr cb ks a s [] []).isPanicked = false) :
    (promptLoop env pr cb ks a s [] []).log = (ks.takeWhile keyReadNonTerm).filterMap id := by
  have H := promptLoop_log_aux env pr cb ks a s [] [] h
  simpa using H

/-- Witness for C2 (amended) on a concrete Enter-terminated prompt run. -/
theorem prompt_callback_log_witness :
    (promptLoop env0 "p: " trivialCb [some (Key.Char 'a'), some (Key.Char '\n')] ()
      cleanState [] []).log =
      (([some (Key.Char 'a'), some (Key.Char '\n')] : List KeyRead).takeWhile
        keyReadNonTerm).filterMap id :=
  prompt_callback_log env0 "p: " trivialCb () cleanState
    [some (Key.Char 'a'), some (Key.Char '\n')] (by rfl)

theorem byteLen_foldl (cs : List Char) : ∀ (n : Nat),
    List.foldl (fun n c => n + c.utf8Size) n cs =
      n + List.foldl (fun n c => n + c.utf8Size) 0 cs := by
  induction cs with
  | nil => intro n; simp
  | cons c cs ih =>
      intro n
      simp only [List.foldl_cons]
      rw [ih (n + c.utf8Size), ih (0 + c.utf8Size)]
      omega

theorem byteLen_all_one : ∀ (r : List Char), (∀ c ∈ r, c.utf8Size = 1) →
    byteLen r = r.length := by
  intro r
  induction r with
  | nil => intro _; rfl
  | cons c cs ih =>
      intro h
      have hc : c.utf8Size = 1 := h c (List.mem_cons_self c cs)
      have hstep : byteLen (c :: cs) = c.utf8Size + byteLen cs := by
        simp only [byteLen, List.foldl_cons]
        rw [byteLen_foldl cs (0 + c.utf8Size)]
        omega
      rw [hstep, hc, ih (fun x hx => h x (List.mem_cons_of_mem c hx))]
      simp [List.length_cons]
      omega

theorem truncateBytes_ascii_take : ∀ (r : List Char), (∀ c ∈ r, c.utf8Size = 1) →
    ∀ (n : Nat), truncateBytes r n = some (r.take n) := by
  intro r
  induction r with
  | nil => intro _ n; cases n <;> rfl
  | cons c cs ih =>
      intro h n
      cases n with
      | zero => rfl
      | succ m =>
          have hc : c.utf8Size = 1 := h c (List.mem_cons_self c cs)
          simp only [truncateBytes, hc]
          rw [if_pos (by omega : 1 ≤ m + 1)]
          rw [ih (fun x hx => h x (List.mem_cons_of_mem c hx)) (m + 1 - 1)]
          simp [List.take_succ_cons]

/-- C10 counterexample: a prompt fed the (non-control, two-byte) character
`é` and then Backspace panics — `result.truncate(result.len() - 1)` lands
inside the final character's UTF-8 encoding, so a Backspace **can** raise an
error, contradicting "no underflow or error is possible for any input
state". -/
theorem backspace_multibyte_cex :
    (promptLoop env0 "p: " trivialCb [some (Key.Char 'é'), some Key.Backspace] ()
      cleanState [] []).isPanicked = true := rfl

/-- C10 (amended): Backspace on an **empty** accumulated input leaves the
input empty and the loop simply continues (the saturating subtraction clamps
`0 - 1` to `0`, so no underflow occurs); more generally, whenever every
accumulated character is a single UTF-8 byte, the truncation safely drops the
last character.  (Only a multi-byte final character makes Backspace panic,
per the counterexample.) -/
theorem backspace_amended :
    (∀ {A : Type} (env : Env) (pr : String)
        (cb : A → EditorState → Key → List Char → A × EditorState) (a : A)
        (s : EditorState) (rest : List KeyRead) (log : List Key),
      promptLoop env pr cb (some Key.Backspace :: rest) a s [] log =
        promptLoop env pr cb rest
          (cb a (status env s (pr ++ String.mk []) true) Key.Backspace []).1
          (cb a (status env s (pr ++ String.mk []) true) Key.Backspace []).2 []
          (log ++ [Key.Backspace])) ∧
    (∀ (r : List Char), (∀ c ∈ r, c.utf8Size = 1) →
      truncateBytes r (byteLen r - 1) = some r.dropLast) := by
  constructor
  · intro A env pr cb a s rest log
    rfl
  · intro r h
    rw [byteLen_all_one r h, truncateBytes_ascii_take r h (r.length - 1),
      List.dropLast_eq_take]

/-- Witness for C10 (amended): the general ASCII-safe truncation applied to a
concrete two-character input. -/
theorem backspace_amended_witness :
    truncateBytes [Char.ofNat 97, Char.ofNat 98]
        (byteLen [Char.ofNat 97, Char.ofNat 98] - 1) =
      some ([Char.ofNat 97, Char.ofNat 98].dropLast) :=
  backspace_amended.2 [Char.ofNat 97, Char.ofNat 98] (by decide)

/-- C9: `search` sets `highlighted_word := none` on every return path —
whether the prompt was cancelled, finished with a query, or ended in a
propagated read error — so no search highlight survives the prompt. -/
theorem search_clears_highlight (env : Env) (s : EditorState) (ks : List KeyRead) :
    ((search env s ks).okState.all fun s2 => s2.highlighted_word.isNone) = true := by
  unfold search
  cases hpl : promptLoop env "search (esc:cancel, arrows:navigate): " (searchCallback env)
      ks SearchDirection.Forward s [] [] with
  | finished a s1 res rest log =>
      dsimp only
      split <;> rfl
  | ioError a s1 rest log => rfl
  | blocked log => rfl
  | panicked log => rfl

/-! ### Claims C4, C5, C6, C8: error handling, paste, backup -/

/-- An environment whose clipboard access fails. -/
def envNoClip : Env := { env0 with clipboard := none }

/-- An environment where `Document::save` fails. -/
def envSaveFail : Env := { env0 with docSaveOk := false }

/-- An environment where `fs::File::create` fails. -/
def envCreateFail : Env := { env0 with fileCreateOk := false }

/-- An environment where the very first `write_all` (the first row's content)
fails and every later write succeeds. -/
def envRowFail : Env := { env0 with writeOk := fun n => decide (n ≠ 0) }

/-- An environment where the second `write_all` (the first row's line
terminator) fails and every other write succeeds. -/
def envNlFail : Env := { env0 with writeOk := fun n => decide (n ≠ 1) }

/-- A dirty document with an associated file name. -/
def namedDoc : Document := { rows := [], dirty := true, file_name := some "f" }

/-- A fresh session on the named dirty document. -/
def namedState : EditorState := defaultEditor namedDoc

/-- The two-row named document of the backup scenario. -/
def doc8 : Document :=
  { rows := [String.toList "abc", String.toList "de"], dirty := true, file_name := some "f" }

/-- A session on `doc8`. -/
def s8 : EditorState := defaultEditor doc8

/-- The same session with a non-zero keystroke counter, so that a reset to 0
is observable. -/
def s8b : EditorState := { s8 with since_last_backup := 5 }

/-- Shared fact: when file creation succeeds but some row-content write
fails (`all_ok = false`), `backup` returns with the state completely
unchanged — the loop continues, but no status is emitted and no counter
reset happens. -/
theorem backup_rowWriteFailure (env : Env) (s : EditorState)
    (h1 : env.fileCreateOk = true)
    (h2 : (backupWrites env.writeOk s.document.doc_read 0).2 = false) :
    backup env s =
      some (s, cacheFileOf s, (backupWrites env.writeOk s.document.doc_read 0).1) := by
  simp [backup, h1, h2]

/-- C4 counterexample: a clipboard access failure makes `paste` abort the
whole process (the source `unwrap`s both clipboard calls), so it is **not**
recovered locally with a status message, contradicting the claim. -/
theorem clipboard_failure_aborts_cex :
    paste envNoClip cleanState = none := rfl

/-- C4 (amended): a save failure is recovered locally with a failure status
and the loop continues; a backup row-content write failure leaves the loop
running but emits no status and resets nothing; a backup file-creation
failure and a clipboard access failure abort the process. -/
theorem error_recovery_amended :
    (∀ (env : Env) (s : EditorState) (ks : List KeyRead),
      env.docSaveOk = false → s.document.file_name.isNone = false →
      save env s ks = CallRes.ok (status env s "__error_saving__" false) ks) ∧
    (∀ (env : Env) (s : EditorState),
      env.fileCreateOk = true →
      (backupWrites env.writeOk s.document.doc_read 0).2 = false →
      backup env s =
        some (s, cacheFileOf s, (backupWrites env.writeOk s.document.doc_read 0).1)) ∧
    (∀ (env : Env) (s : EditorState), env.fileCreateOk = false → backup env s = none) ∧
    (∀ (env : Env) (s : EditorState), env.clipboard = none → paste env s = none) := by
  refine ⟨?_, backup_rowWriteFailure, ?_, ?_⟩
  · intro env s ks h1 h2
    unfold save
    rw [if_neg (by simp [h2])]
    unfold doSave
    rw [if_neg (by simp [h1])]
  · intro env s h
    unfold backup
    rw [if_neg (by simp [h])]
  · intro env s h
    unfold paste
    rw [h]

/-- Witness for C4 (amended): all four conjuncts at concrete inputs. -/
theorem error_recovery_amended_witness :
    save envSaveFail namedState [] =
      CallRes.ok (status envSaveFail namedState "__error_saving__" false) [] ∧
    backup envRowFail dirtyState =
      some (dirtyState, cacheFileOf dirtyState,
        (backupWrites envRowFail.writeOk dirtyState.document.doc_read 0).1) ∧
    backup envCreateFail cleanState = none ∧
    paste envNoClip cleanState = none :=
  ⟨error_recovery_amended.1 envSaveFail namedState [] rfl rfl,
    error_recovery_amended.2.1 envRowFail dirtyState rfl rfl,
    error_recovery_amended.2.2.1 envCreateFail cleanState rfl,
    error_recovery_amended.2.2.2 envNoClip cleanState rfl⟩

/-- C5 counterexample: a key-read failure (`Terminal::read_key` returning
`Err`) makes `run` call `die(e)` directly — the process aborts with **no**
emergency backup attempt, contradicting "every mid-session terminal I/O
failure triggers one emergency backup attempt". -/
theorem keyread_no_backup_cex :
    runIter env0 true cleanState [none] = IterResult.dieNoBackup := rfl

/-- C5 (amended): a failing screen refresh triggers exactly one emergency
backup attempt before the process aborts; a failing key read aborts the
process with the error surfaced but **without** a backup attempt. -/
theorem io_failure_amended :
    (∀ (env : Env) (s : EditorState) (ks : List KeyRead),
      runIter env false s ks = IterResult.dieAfterBackupAttempt (backup env s)) ∧
    (∀ (env : Env) (s : EditorState) (ks : List KeyRead),
      runIter env true s (none :: ks) = IterResult.dieNoBackup) :=
  ⟨fun _ _ _ => rfl, fun _ _ _ => rfl⟩

/-- The clipboard holds `"hi"`. -/
def envHi : Env := { env0 with clipboard := some "hi" }

/-- C6 counterexample: pasting `"hi"` with the cursor at `(0,0)` leaves the
cursor at `(0,0)`, not `(2,0)` — `paste` inserts at a fixed position and
never advances the cursor. -/
theorem paste_cursor_cex :
    ((paste envHi cleanState).map fun s2 => s2.cursor_position) =
      some { x := 0, y := 0 } ∧
    ({ x := 0, y := 0 } : Position) ≠ { x := 2, y := 0 } :=
  ⟨rfl, by decide⟩

/-- C6 (amended): pasting clipboard text `"hi"` with the cursor at `(0,0)`
inserts `"hi"` in left-to-right order at the original position (the reverse
iteration at a fixed insert position reconstructs the order), and the cursor
remains at `(0,0)` after the paste. -/
theorem paste_amended :
    ((paste envHi cleanState).map fun s2 => (s2.document.rows, s2.cursor_position)) =
      some ([String.toList "hi"], { x := 0, y := 0 }) := rfl

/-- C8 counterexample: on `["abc", "de"]`, if the first line-terminator write
fails (all row-content writes succeeding), only `"abcde\n"` — not
`"abc\nde\n"` — reaches the file, yet the keystroke counter is reset from 5
to 0: a write failure with a counter reset, contradicting "on failure no
counter reset occurs" (terminator write results are discarded by the
source). -/
theorem backup_newline_failure_cex :
    ((backup envNlFail s8b).map fun r => (r.1.since_last_backup, r.2.2)) =
      some (0, String.toList "abcde\n") ∧
    s8b.since_last_backup = 5 ∧
    String.toList "abcde\n" ≠ String.toList "abc\nde\n" :=
  ⟨rfl, rfl, by decide⟩

/-- C8 (amended): with every write succeeding, backing up `["abc", "de"]`
writes exactly `"abc\nde\n"` to `f.tmp` and resets the keystroke counter to
0; when a row-content write fails, the state is unchanged (no reset); but a
failed line-terminator write is invisible to `all_ok`, so the counter can be
reset without full success. -/
theorem backup_bytes :
    ((backup env0 s8b).map fun r => (r.2.1, r.2.2, r.1.since_last_backup)) =
      some ("f.tmp", String.toList "abc\nde\n", 0) ∧
    (∀ (env : Env) (s : EditorState),
      env.fileCreateOk = true →
      (backupWrites env.writeOk s.document.doc_read 0).2 = false →
      backup env s =
        some (s, cacheFileOf s, (backupWrites env.writeOk s.document.doc_read 0).1)) :=
  ⟨rfl, backup_rowWriteFailure⟩

/-- Witness for C8 (amended): the failure conjunct at a concrete
first-row-write failure. -/
theorem backup_bytes_witness :
    backup envRowFail s8 =
      some (s8, cacheFileOf s8, (backupWrites envRowFail.writeOk s8.document.doc_read 0).1) :=
  backup_bytes.2 envRowFail s8 rfl rfl

end Hecto
